import Mathlib

/-!
Verification of the MessagePack deserializer core (rmp-serde `decode.rs`).

The decoder is embedded shallowly: the deserializer state is explicit
(`DState`), bytes are natural numbers below 256 (masked with `% 256` where
classification matters), fallible operations return `Except Error`, and the
external visitor protocol (serde) is a record of callbacks, with the
state-driving callbacks (`visit_some`, `visit_seq`, `visit_map`, ...) given
explicit state-passing types. External collaborators (the rmp wire-primitive
reader and std UTF-8 validation) are modelled from the specification, as
marked on each definition.
-/

namespace MsgpackDecode

/-- I/O failure kinds that can arise in this model: the borrowed byte source
only ever produces end-of-data failures. -/
inductive IoError where
  | unexpectedEof
deriving DecidableEq, Repr

/-- A MessagePack marker, mirroring the `rmp::Marker` enum: the tag decoded
from the leading byte of a value. -/
inductive Marker where
  | FixPos (val : Nat)
  | FixNeg (val : Int)
  | Null
  | True
  | False
  | U8
  | U16
  | U32
  | U64
  | I8
  | I16
  | I32
  | I64
  | F32
  | F64
  | FixStr (len : Nat)
  | Str8
  | Str16
  | Str32
  | Bin8
  | Bin16
  | Bin32
  | FixArray (len : Nat)
  | Array16
  | Array32
  | FixMap (len : Nat)
  | Map16
  | Map32
  | FixExt1
  | FixExt2
  | FixExt4
  | FixExt8
  | FixExt16
  | Ext8
  | Ext16
  | Ext32
  | Reserved
deriving DecidableEq, Repr

/-- The decode error taxonomy of `rmp_serde::decode::Error`. The payload of
`Utf8Error` (the std error value) is not modelled. -/
inductive Error where
  | InvalidMarkerRead (e : IoError)
  | InvalidDataRead (e : IoError)
  | TypeMismatch (m : Marker)
  | OutOfRange
  | LengthMismatch (n : Nat)
  | Uncategorized (msg : String)
  | Syntax (msg : String)
  | Utf8Error
  | DepthLimitExceeded
deriving DecidableEq, Repr

/-- Unification of borrowed and copied slice results (`Reference` in the
source). -/
inductive Reference (α : Type) where
  | Borrowed (a : α)
  | Copied (a : α)
deriving DecidableEq, Repr

/-- The deserializer state for the borrowed byte source (`ReadRefReader`):
the remaining input bytes, the one-slot cached marker, and the (inert)
depth budget. -/
structure DState where
  rd : List Nat
  marker : Option Marker
  depth : Nat
deriving DecidableEq, Repr

/-- Modelled from the spec: classification of a single marker byte per the
standard MessagePack layout (spec section 6); implemented in the external
rmp crate (`Marker::from_u8`). -/
def Marker.fromU8 (b : Nat) : Marker :=
  if b ≤ 0x7f then .FixPos b
  else if b ≤ 0x8f then .FixMap (b - 0x80)
  else if b ≤ 0x9f then .FixArray (b - 0x90)
  else if b ≤ 0xbf then .FixStr (b - 0xa0)
  else if b = 0xc0 then .Null
  else if b = 0xc1 then .Reserved
  else if b = 0xc2 then .False
  else if b = 0xc3 then .True
  else if b = 0xc4 then .Bin8
  else if b = 0xc5 then .Bin16
  else if b = 0xc6 then .Bin32
  else if b = 0xc7 then .Ext8
  else if b = 0xc8 then .Ext16
  else if b = 0xc9 then .Ext32
  else if b = 0xca then .F32
  else if b = 0xcb then .F64
  else if b = 0xcc then .U8
  else if b = 0xcd then .U16
  else if b = 0xce then .U32
  else if b = 0xcf then .U64
  else if b = 0xd0 then .I8
  else if b = 0xd1 then .I16
  else if b = 0xd2 then .I32
  else if b = 0xd3 then .I64
  else if b = 0xd4 then .FixExt1
  else if b = 0xd5 then .FixExt2
  else if b = 0xd6 then .FixExt4
  else if b = 0xd7 then .FixExt8
  else if b = 0xd8 then .FixExt16
  else if b = 0xd9 then .Str8
  else if b = 0xda then .Str16
  else if b = 0xdb then .Str32
  else if b = 0xdc then .Array16
  else if b = 0xdd then .Array32
  else if b = 0xde then .Map16
  else if b = 0xdf then .Map32
  else .FixNeg ((b : Int) - 256)

/-- Modelled from the spec: `rmp::decode::read_marker` (external crate) reads
one byte and classifies it; an I/O failure there becomes
`Error::InvalidMarkerRead` through the `From<MarkerReadError>` conversion. -/
def read_marker (rd : List Nat) : Except Error (Marker × List Nat) :=
  match rd with
  | [] => .error (.InvalidMarkerRead .unexpectedEof)
  | b :: rest => .ok (Marker.fromU8 (b % 256), rest)

/-- Big-endian value of a byte list (each byte masked to 8 bits). -/
def beValue (bs : List Nat) : Nat :=
  bs.foldl (fun acc b => acc * 256 + b % 256) 0

/-- Modelled from the spec: the external rmp `read_data_*` family reads `n`
trailing big-endian payload bytes; an I/O failure becomes
`Error::InvalidDataRead`. -/
def read_data (n : Nat) (rd : List Nat) : Except Error (Nat × List Nat) :=
  if rd.length < n then .error (.InvalidDataRead .unexpectedEof)
  else .ok (beValue (rd.take n), rd.drop n)

/-- Two's-complement reinterpretation of a `w`-bit unsigned value. -/
def toSigned (w : Nat) (v : Nat) : Int :=
  if v < 2 ^ (w - 1) then (v : Int) else (v : Int) - 2 ^ w

/-- Modelled from the spec: rmp `read_data_u8`. -/
def read_data_u8 (rd : List Nat) : Except Error (Nat × List Nat) := read_data 1 rd

/-- Modelled from the spec: rmp `read_data_u16`. -/
def read_data_u16 (rd : List Nat) : Except Error (Nat × List Nat) := read_data 2 rd

/-- Modelled from the spec: rmp `read_data_u32`. -/
def read_data_u32 (rd : List Nat) : Except Error (Nat × List Nat) := read_data 4 rd

/-- Modelled from the spec: rmp `read_data_u64`. -/
def read_data_u64 (rd : List Nat) : Except Error (Nat × List Nat) := read_data 8 rd

/-- Modelled from the spec: rmp `read_data_i8` (two's complement). -/
def read_data_i8 (rd : List Nat) : Except Error (Int × List Nat) :=
  (read_data 1 rd).map (fun p => (toSigned 8 p.1, p.2))

/-- Modelled from the spec: rmp `read_data_i16` (two's complement). -/
def read_data_i16 (rd : List Nat) : Except Error (Int × List Nat) :=
  (read_data 2 rd).map (fun p => (toSigned 16 p.1, p.2))

/-- Modelled from the spec: rmp `read_data_i32` (two's complement). -/
def read_data_i32 (rd : List Nat) : Except Error (Int × List Nat) :=
  (read_data 4 rd).map (fun p => (toSigned 32 p.1, p.2))

/-- Modelled from the spec: rmp `read_data_i64` (two's complement). -/
def read_data_i64 (rd : List Nat) : Except Error (Int × List Nat) :=
  (read_data 8 rd).map (fun p => (toSigned 64 p.1, p.2))

/-- Whether a byte is a UTF-8 continuation byte (`0x80..=0xbf`). -/
def utf8Cont (b : Nat) : Bool :=
  decide (0x80 ≤ b) && decide (b ≤ 0xbf)

/-- Modelled from the spec: std `str::from_utf8` validity (external to the
crate), per the UTF-8 table of RFC 3629: rejects overlong encodings,
surrogates, and code points above U+10FFFF. -/
def isValidUtf8 : List Nat → Bool
  | [] => true
  | b :: rest =>
    if b ≤ 0x7f then isValidUtf8 rest
    else if b < 0xc2 then false
    else if b ≤ 0xdf then
      match rest with
      | c1 :: r => utf8Cont c1 && isValidUtf8 r
      | [] => false
    else if b ≤ 0xef then
      match rest with
      | c1 :: c2 :: r =>
        (if b = 0xe0 then decide (0xa0 ≤ c1) && decide (c1 ≤ 0xbf)
         else if b = 0xed then decide (0x80 ≤ c1) && decide (c1 ≤ 0x9f)
         else utf8Cont c1) && utf8Cont c2 && isValidUtf8 r
      | _ => false
    else if b ≤ 0xf4 then
      match rest with
      | c1 :: c2 :: c3 :: r =>
        (if b = 0xf0 then decide (0x90 ≤ c1) && decide (c1 ≤ 0xbf)
         else if b = 0xf4 then decide (0x80 ≤ c1) && decide (c1 ≤ 0x8f)
         else utf8Cont c1) && utf8Cont c2 && utf8Cont c3 && isValidUtf8 r
      | _ => false
    else false

/-- Modelled from the spec: rmp `decode::read_array_len` (external crate)
reads one marker and resolves an array length from it: a fixed-array marker
carries the length inline; `Array16` and `Array32` read a big-endian length;
any other marker is a type mismatch. -/
def read_array_len (rd : List Nat) : Except Error (Nat × List Nat) :=
  match read_marker rd with
  | .error e => .error e
  | .ok (m, rest) =>
    match m with
    | .FixArray n => .ok (n, rest)
    | .Array16 => read_data_u16 rest
    | .Array32 => read_data_u32 rest
    | m => .error (.TypeMismatch m)

/-- `ReadRefReader::read_slice`: on the borrowed byte source, either borrow
the `len`-byte prefix and advance, or fail with end-of-data leaving the
buffer untouched. The pair carries the reader state after the call. -/
def ReadRefReader.read_slice (buf : List Nat) (len : Nat) :
    Except IoError (Reference (List Nat)) × List Nat :=
  if buf.length < len then (.error .unexpectedEof, buf)
  else (.ok (.Borrowed (buf.take len)), buf.drop len)

/-- The serde visitor protocol, as seen by this decoder: one callback per
notification shape. Callbacks that receive the deserializer in the source
(`visit_some`, `visit_newtype_struct`, seq/map/enum access) are explicit
state transformers here. Float payloads are passed as raw big-endian bit
patterns. The enum callbacks reflect the two access types: the unit access
carries only the variant index, the map access re-enters the deserializer. -/
structure Visitor (α : Type) where
  visit_unit : Except Error α
  visit_bool : Bool → Except Error α
  visit_u8 : Nat → Except Error α
  visit_u16 : Nat → Except Error α
  visit_u32 : Nat → Except Error α
  visit_u64 : Nat → Except Error α
  visit_i8 : Int → Except Error α
  visit_i16 : Int → Except Error α
  visit_i32 : Int → Except Error α
  visit_i64 : Int → Except Error α
  visit_f32 : Nat → Except Error α
  visit_f64 : Nat → Except Error α
  visit_borrowed_str : List Nat → Except Error α
  visit_str : List Nat → Except Error α
  visit_borrowed_bytes : List Nat → Except Error α
  visit_bytes : List Nat → Except Error α
  visit_none : Except Error α
  visit_some : DState → Except Error (α × DState)
  visit_newtype_struct : DState → Except Error (α × DState)
  visit_seq : Nat → DState → Except Error (α × DState)
  visit_map : Nat → DState → Except Error (α × DState)
  visit_enum_unit : Nat → Except Error α
  visit_enum_map : DState → Except Error (α × DState)

/-- `Deserializer::read_bin_data`: read `len` bytes through the byte
source's `read_slice`, mapping an I/O failure to `InvalidDataRead`. -/
def read_bin_data (len : Nat) (st : DState) :
    Except Error (Reference (List Nat) × DState) :=
  match ReadRefReader.read_slice st.rd len with
  | (.ok r, rd1) => .ok (r, { st with rd := rd1 })
  | (.error e, _) => .error (.InvalidDataRead e)

/-- `Deserializer::read_str_data`: read `len` payload bytes; on valid UTF-8
notify a (borrowed or copied) string; on invalid UTF-8 fall back to the
bytes notification, and only fail (with `Utf8Error`) if that is rejected. -/
def read_str_data {α : Type} (v : Visitor α) (len : Nat) (st : DState) :
    Except Error (α × DState) :=
  match read_bin_data len st with
  | .error e => .error e
  | .ok (.Borrowed buf, st1) =>
    if isValidUtf8 buf then
      (v.visit_borrowed_str buf).map (fun a => (a, st1))
    else
      match v.visit_borrowed_bytes buf with
      | .ok a => .ok (a, st1)
      | .error _ => .error .Utf8Error
  | .ok (.Copied buf, st1) =>
    if isValidUtf8 buf then
      (v.visit_str buf).map (fun a => (a, st1))
    else
      match v.visit_bytes buf with
      | .ok a => .ok (a, st1)
      | .error _ => .error .Utf8Error

/-- `Deserializer::read_array`: hand the visitor a sequence cursor with the
declared element count. -/
def read_array {α : Type} (v : Visitor α) (len : Nat) (st : DState) :
    Except Error (α × DState) :=
  v.visit_seq len st

/-- `Deserializer::read_map`: hand the visitor a map cursor with the
declared entry count. -/
def read_map {α : Type} (v : Visitor α) (len : Nat) (st : DState) :
    Except Error (α × DState) :=
  v.visit_map len st

/-- `Deserializer::read_bytes`: read `len` bytes and notify them as
(borrowed or copied) bytes, with no UTF-8 attempt. -/
def read_bytes {α : Type} (v : Visitor α) (len : Nat) (st : DState) :
    Except Error (α × DState) :=
  match read_bin_data len st with
  | .error e => .error e
  | .ok (.Borrowed buf, st1) => (v.visit_borrowed_bytes buf).map (fun a => (a, st1))
  | .ok (.Copied buf, st1) => (v.visit_bytes buf).map (fun a => (a, st1))

/-- The exhaustive marker dispatch inside `deserialize_any` (the match on the
taken marker, after the one-slot cache has been consulted and cleared). -/
def Deserializer.dispatch {α : Type} (v : Visitor α) (m : Marker) (st : DState) :
    Except Error (α × DState) :=
  match m with
  | .Null => (v.visit_unit).map (fun a => (a, st))
  | .True => (v.visit_bool true).map (fun a => (a, st))
  | .False => (v.visit_bool false).map (fun a => (a, st))
  | .FixPos val => (v.visit_u8 val).map (fun a => (a, st))
  | .FixNeg val => (v.visit_i8 val).map (fun a => (a, st))
  | .U8 =>
    match read_data_u8 st.rd with
    | .error e => .error e
    | .ok (n, rd1) => (v.visit_u8 n).map (fun a => (a, { st with rd := rd1 }))
  | .U16 =>
    match read_data_u16 st.rd with
    | .error e => .error e
    | .ok (n, rd1) => (v.visit_u16 n).map (fun a => (a, { st with rd := rd1 }))
  | .U32 =>
    match read_data_u32 st.rd with
    | .error e => .error e
    | .ok (n, rd1) => (v.visit_u32 n).map (fun a => (a, { st with rd := rd1 }))
  | .U64 =>
    match read_data_u64 st.rd with
    | .error e => .error e
    | .ok (n, rd1) => (v.visit_u64 n).map (fun a => (a, { st with rd := rd1 }))
  | .I8 =>
    match read_data_i8 st.rd with
    | .error e => .error e
    | .ok (n, rd1) => (v.visit_i8 n).map (fun a => (a, { st with rd := rd1 }))
  | .I16 =>
    match read_data_i16 st.rd with
    | .error e => .error e
    | .ok (n, rd1) => (v.visit_i16 n).map (fun a => (a, { st with rd := rd1 }))
  | .I32 =>
    match read_data_i32 st.rd with
    | .error e => .error e
    | .ok (n, rd1) => (v.visit_i32 n).map (fun a => (a, { st with rd := rd1 }))
  | .I64 =>
    match read_data_i64 st.rd with
    | .error e => .error e
    | .ok (n, rd1) => (v.visit_i64 n).map (fun a => (a, { st with rd := rd1 }))
  | .F32 =>
    match read_data_u32 st.rd with
    | .error e => .error e
    | .ok (n, rd1) => (v.visit_f32 n).map (fun a => (a, { st with rd := rd1 }))
  | .F64 =>
    match read_data_u64 st.rd with
    | .error e => .error e
    | .ok (n, rd1) => (v.visit_f64 n).map (fun a => (a, { st with rd := rd1 }))
  | .FixStr len => read_str_data v len st
  | .Str8 =>
    match read_data_u8 st.rd with
    | .error e => .error e
    | .ok (len, rd1) => read_str_data v len { st with rd := rd1 }
  | .Str16 =>
    match read_data_u16 st.rd with
    | .error e => .error e
    | .ok (len, rd1) => read_str_data v len { st with rd := rd1 }
  | .Str32 =>
    match read_data_u32 st.rd with
    | .error e => .error e
    | .ok (len, rd1) => read_str_data v len { st with rd := rd1 }
  | .FixArray len => read_array v len st
  | .Array16 =>
    match read_data_u16 st.rd with
    | .error e => .error e
    | .ok (len, rd1) => read_array v len { st with rd := rd1 }
  | .Array32 =>
    match read_data_u32 st.rd with
    | .error e => .error e
    | .ok (len, rd1) => read_array v len { st with rd := rd1 }
  | .FixMap len => read_map v len st
  | .Map16 =>
    match read_data_u16 st.rd with
    | .error e => .error e
    | .ok (len, rd1) => read_map v len { st with rd := rd1 }
  | .Map32 =>
    match read_data_u32 st.rd with
    | .error e => .error e
    | .ok (len, rd1) => read_map v len { st with rd := rd1 }
  | .Bin8 =>
    match read_data_u8 st.rd with
    | .error e => .error e
    | .ok (len, rd1) => read_bytes v len { st with rd := rd1 }
  | .Bin16 =>
    match read_data_u16 st.rd with
    | .error e => .error e
    | .ok (len, rd1) => read_bytes v len { st with rd := rd1 }
  | .Bin32 =>
    match read_data_u32 st.rd with
    | .error e => .error e
    | .ok (len, rd1) => read_bytes v len { st with rd := rd1 }
  | .Reserved => .error (.TypeMismatch .Reserved)
  | m => .error (.TypeMismatch m)

/-- `deserialize_any`: take the cached marker if present (clearing the
slot), otherwise read a fresh marker from the byte source, then dispatch. -/
def deserialize_any {α : Type} (v : Visitor α) (st : DState) :
    Except Error (α × DState) :=
  match st.marker with
  | some m => Deserializer.dispatch v m { st with marker := none }
  | none =>
    match read_marker st.rd with
    | .error e => .error e
    | .ok (m, rd1) => Deserializer.dispatch v m { st with rd := rd1, marker := none }

/-- `deserialize_option`: read a fresh marker (the cache is not consulted);
`Null` notifies "none", anything else is stored in the one-slot cache and
"some" re-enters the deserializer through the visitor. -/
def deserialize_option {α : Type} (v : Visitor α) (st : DState) :
    Except Error (α × DState) :=
  match read_marker st.rd with
  | .error e => .error e
  | .ok (m, rd1) =>
    if m = Marker.Null then
      (v.visit_none).map (fun a => (a, { st with rd := rd1 }))
    else
      v.visit_some { st with rd := rd1, marker := some m }

/-- The marker dispatch inside `deserialize_enum`, on the state just past
the marker byte: an embedded positive integer or an explicit u8/u16/u32
becomes a unit-variant access with that index, a single-entry fixmap becomes
a map variant access, and every other marker is a `TypeMismatch` carrying
it. -/
def Deserializer.enum_dispatch {α : Type} (v : Visitor α) (m : Marker) (st : DState) :
    Except Error (α × DState) :=
  match m with
  | .FixPos variant => (v.visit_enum_unit variant).map (fun a => (a, st))
  | .FixMap 1 => v.visit_enum_map st
  | .U8 =>
    match read_data_u8 st.rd with
    | .error e => .error e
    | .ok (variant, rd2) =>
      (v.visit_enum_unit variant).map (fun a => (a, { st with rd := rd2 }))
  | .U16 =>
    match read_data_u16 st.rd with
    | .error e => .error e
    | .ok (variant, rd2) =>
      (v.visit_enum_unit variant).map (fun a => (a, { st with rd := rd2 }))
  | .U32 =>
    match read_data_u32 st.rd with
    | .error e => .error e
    | .ok (variant, rd2) =>
      (v.visit_enum_unit variant).map (fun a => (a, { st with rd := rd2 }))
  | m => .error (.TypeMismatch m)

/-- `deserialize_enum`: read a fresh marker (the cache is not consulted) and
dispatch on it. -/
def deserialize_enum {α : Type} (v : Visitor α) (st : DState) :
    Except Error (α × DState) :=
  match read_marker st.rd with
  | .error e => .error e
  | .ok (m, rd1) => Deserializer.enum_dispatch v m { st with rd := rd1 }

/-- `deserialize_newtype_struct`: transparent forwarding to the inner
value through the visitor. -/
def deserialize_newtype_struct {α : Type} (_name : String) (v : Visitor α) (st : DState) :
    Except Error (α × DState) :=
  v.visit_newtype_struct st

/-- `set_max_depth`: store the configured nesting-depth budget. -/
def set_max_depth (depth : Nat) (st : DState) : DState :=
  { st with depth := depth }

/-! The `forward_to_deserialize_any!` expansion: every remaining typed entry
point delegates to `deserialize_any`, discarding its extra arguments. -/

/-- Forwarded entry point for `bool`. -/
def deserialize_bool {α : Type} (v : Visitor α) (st : DState) : Except Error (α × DState) :=
  deserialize_any v st

/-- Forwarded entry point for `u8`. -/
def deserialize_u8 {α : Type} (v : Visitor α) (st : DState) : Except Error (α × DState) :=
  deserialize_any v st

/-- Forwarded entry point for `u16`. -/
def deserialize_u16 {α : Type} (v : Visitor α) (st : DState) : Except Error (α × DState) :=
  deserialize_any v st

/-- Forwarded entry point for `u32`. -/
def deserialize_u32 {α : Type} (v : Visitor α) (st : DState) : Except Error (α × DState) :=
  deserialize_any v st

/-- Forwarded entry point for `u64`. -/
def deserialize_u64 {α : Type} (v : Visitor α) (st : DState) : Except Error (α × DState) :=
  deserialize_any v st

/-- Forwarded entry point for `i8`. -/
def deserialize_i8 {α : Type} (v : Visitor α) (st : DState) : Except Error (α × DState) :=
  deserialize_any v st

/-- Forwarded entry point for `i16`. -/
def deserialize_i16 {α : Type} (v : Visitor α) (st : DState) : Except Error (α × DState) :=
  deserialize_any v st

/-- Forwarded entry point for `i32`. -/
def deserialize_i32 {α : Type} (v : Visitor α) (st : DState) : Except Error (α × DState) :=
  deserialize_any v st

/-- Forwarded entry point for `i64`. -/
def deserialize_i64 {α : Type} (v : Visitor α) (st : DState) : Except Error (α × DState) :=
  deserialize_any v st

/-- Forwarded entry point for `f32`. -/
def deserialize_f32 {α : Type} (v : Visitor α) (st : DState) : Except Error (α × DState) :=
  deserialize_any v st

/-- Forwarded entry point for `f64`. -/
def deserialize_f64 {α : Type} (v : Visitor α) (st : DState) : Except Error (α × DState) :=
  deserialize_any v st

/-- Forwarded entry point for `char`. -/
def deserialize_char {α : Type} (v : Visitor α) (st : DState) : Except Error (α × DState) :=
  deserialize_any v st

/-- Forwarded entry point for `str`. -/
def deserialize_str {α : Type} (v : Visitor α) (st : DState) : Except Error (α × DState) :=
  deserialize_any v st

/-- Forwarded entry point for `string`. -/
def deserialize_string {α : Type} (v : Visitor α) (st : DState) : Except Error (α × DState) :=
  deserialize_any v st

/-- Forwarded entry point for `bytes`. -/
def deserialize_bytes {α : Type} (v : Visitor α) (st : DState) : Except Error (α × DState) :=
  deserialize_any v st

/-- Forwarded entry point for `byte_buf`. -/
def deserialize_byte_buf {α : Type} (v : Visitor α) (st : DState) : Except Error (α × DState) :=
  deserialize_any v st

/-- Forwarded entry point for `unit`. -/
def deserialize_unit {α : Type} (v : Visitor α) (st : DState) : Except Error (α × DState) :=
  deserialize_any v st

/-- Forwarded entry point for `unit_struct`; the struct name is discarded. -/
def deserialize_unit_struct {α : Type} (_name : String) (v : Visitor α) (st : DState) :
    Except Error (α × DState) :=
  deserialize_any v st

/-- Forwarded entry point for `seq`. -/
def deserialize_seq {α : Type} (v : Visitor α) (st : DState) : Except Error (α × DState) :=
  deserialize_any v st

/-- Forwarded entry point for `map`. -/
def deserialize_map {α : Type} (v : Visitor α) (st : DState) : Except Error (α × DState) :=
  deserialize_any v st

/-- Forwarded entry point for `tuple`; the declared arity is discarded. -/
def deserialize_tuple {α : Type} (_len : Nat) (v : Visitor α) (st : DState) :
    Except Error (α × DState) :=
  deserialize_any v st

/-- Forwarded entry point for `tuple_struct`; name and arity are discarded. -/
def deserialize_tuple_struct {α : Type} (_name : String) (_len : Nat) (v : Visitor α)
    (st : DState) : Except Error (α × DState) :=
  deserialize_any v st

/-- Forwarded entry point for `struct`; name and field list are discarded. -/
def deserialize_struct {α : Type} (_name : String) (_fields : List String) (v : Visitor α)
    (st : DState) : Except Error (α × DState) :=
  deserialize_any v st

/-- Forwarded entry point for `identifier`. -/
def deserialize_identifier {α : Type} (v : Visitor α) (st : DState) :
    Except Error (α × DState) :=
  deserialize_any v st

/-- Forwarded entry point for `ignored_any`. -/
def deserialize_ignored_any {α : Type} (v : Visitor α) (st : DState) :
    Except Error (α × DState) :=
  deserialize_any v st

/-! Sequence and map cursors. A cursor is its remaining-element counter; the
deserializer state is threaded explicitly, and the caller-supplied element
seed is a state transformer standing for `seed.deserialize(&mut *self.de)`. -/

/-- `SeqAccess::next_element_seed`: with elements remaining, decrement and
decode one element through the shared deserializer; exhausted, report no
element without touching the input. -/
def SeqAccess.next_element_seed {α : Type} (seed : DState → Except Error (α × DState))
    (left : Nat) (st : DState) : Except Error (Option α × Nat × DState) :=
  if 0 < left then
    match seed st with
    | .ok (a, st1) => .ok (some a, left - 1, st1)
    | .error e => .error e
  else
    .ok (none, left, st)

/-- `SeqAccess::size_hint`: the remaining count. -/
def SeqAccess.size_hint (left : Nat) : Option Nat :=
  some left

/-- `MapAccess::next_key_seed`: with entries remaining, decrement and decode
one key through the shared deserializer; exhausted, report no key. -/
def MapAccess.next_key_seed {α : Type} (seed : DState → Except Error (α × DState))
    (left : Nat) (st : DState) : Except Error (Option α × Nat × DState) :=
  if 0 < left then
    match seed st with
    | .ok (a, st1) => .ok (some a, left - 1, st1)
    | .error e => .error e
  else
    .ok (none, left, st)

/-- `MapAccess::next_value_seed`: decode one value through the shared
deserializer, with no counter check. -/
def MapAccess.next_value_seed {α : Type} (seed : DState → Except Error (α × DState))
    (st : DState) : Except Error (α × DState) :=
  match seed st with
  | .ok (a, st1) => .ok (a, st1)
  | .error e => .error e

/-- `MapAccess::size_hint`: the remaining count. -/
def MapAccess.size_hint (left : Nat) : Option Nat :=
  some left

/-! The map-form variant access (`VariantAccess` in the source), holding a
back-reference to the deserializer: payload readers for the value slot of a
single-entry enum map. -/

/-- `VariantAccess::unit_variant`: read and discard one array-length marker
from the wire. -/
def VariantAccess.unit_variant (st : DState) : Except Error (Unit × DState) :=
  match read_array_len st.rd with
  | .error e => .error e
  | .ok (_, rd1) => .ok ((), { st with rd := rd1 })

/-- `VariantAccess::newtype_variant_seed`: recursively decode the single
enclosed value through the shared deserializer. -/
def VariantAccess.newtype_variant_seed {α : Type}
    (seed : DState → Except Error (α × DState)) (st : DState) :
    Except Error (α × DState) :=
  seed st

/-- `VariantAccess::tuple_variant`: delegate to `deserialize_tuple` with the
declared arity. -/
def VariantAccess.tuple_variant {α : Type} (len : Nat) (v : Visitor α) (st : DState) :
    Except Error (α × DState) :=
  deserialize_tuple len v st

/-- `VariantAccess::struct_variant`: delegate to `deserialize_tuple` with
the declared field count. -/
def VariantAccess.struct_variant {α : Type} (fields : List String) (v : Visitor α)
    (st : DState) : Except Error (α × DState) :=
  deserialize_tuple fields.length v st

/-- Stated from the spec's words, for comparison with the code: the four
accepted wire forms in enum position are an embedded small positive integer,
an explicit u8/u16/u32 integer, and a map whose declared size is exactly one
entry. -/
def specEnumAccepted (m : Marker) : Bool :=
  match m with
  | .FixPos _ => true
  | .FixMap 1 => true
  | .U8 => true
  | .U16 => true
  | .U32 => true
  | _ => false

/-! Behavioural predicates used to state the invariants about the one-slot
marker cache and the inert depth budget. -/

/-- A state transformer leaves the marker cache empty on every success. -/
def CacheClean {α : Type} (f : DState → Except Error (α × DState)) : Prop :=
  ∀ st a st1, f st = .ok (a, st1) → st1.marker = none

/-- Replace the depth budget of a state. -/
def DState.withDepth (d : Nat) (st : DState) : DState :=
  { st with depth := d }

/-- A state transformer neither reads nor writes the depth budget: its run
from a depth-adjusted state is the depth-adjusted run. -/
def DepthCommutes {α : Type} (f : DState → Except Error (α × DState)) : Prop :=
  ∀ st d, f (DState.withDepth d st) = (f st).map (fun p => (p.1, DState.withDepth d p.2))

/-- A pure visitor result that is not the depth-limit error. -/
def PureNoDLE {α : Type} (r : Except Error α) : Prop :=
  r ≠ .error .DepthLimitExceeded

/-- A state transformer that never produces the depth-limit error. -/
def FunNoDLE {α : Type} (f : DState → Except Error (α × DState)) : Prop :=
  ∀ st, f st ≠ .error .DepthLimitExceeded

/-- The visitor's sequence and map callbacks leave the marker cache empty on
success (as every re-entry through the deserializer does). -/
def Visitor.SeqMapCacheClean {α : Type} (v : Visitor α) : Prop :=
  (∀ len, CacheClean (v.visit_seq len)) ∧ (∀ len, CacheClean (v.visit_map len))

/-- The visitor's sequence and map callbacks neither read nor write the
depth budget. -/
def Visitor.SeqMapDepthCommutes {α : Type} (v : Visitor α) : Prop :=
  (∀ len, DepthCommutes (v.visit_seq len)) ∧ (∀ len, DepthCommutes (v.visit_map len))

/-- No callback of the visitor ever produces the depth-limit error. -/
def Visitor.NoDepthErrs {α : Type} (v : Visitor α) : Prop :=
  PureNoDLE v.visit_unit ∧
  (∀ b, PureNoDLE (v.visit_bool b)) ∧
  (∀ n, PureNoDLE (v.visit_u8 n)) ∧
  (∀ n, PureNoDLE (v.visit_u16 n)) ∧
  (∀ n, PureNoDLE (v.visit_u32 n)) ∧
  (∀ n, PureNoDLE (v.visit_u64 n)) ∧
  (∀ i, PureNoDLE (v.visit_i8 i)) ∧
  (∀ i, PureNoDLE (v.visit_i16 i)) ∧
  (∀ i, PureNoDLE (v.visit_i32 i)) ∧
  (∀ i, PureNoDLE (v.visit_i64 i)) ∧
  (∀ n, PureNoDLE (v.visit_f32 n)) ∧
  (∀ n, PureNoDLE (v.visit_f64 n)) ∧
  (∀ bs, PureNoDLE (v.visit_borrowed_str bs)) ∧
  (∀ bs, PureNoDLE (v.visit_str bs)) ∧
  (∀ bs, PureNoDLE (v.visit_borrowed_bytes bs)) ∧
  (∀ bs, PureNoDLE (v.visit_bytes bs)) ∧
  PureNoDLE v.visit_none ∧
  FunNoDLE v.visit_some ∧
  FunNoDLE v.visit_newtype_struct ∧
  (∀ len, FunNoDLE (v.visit_seq len)) ∧
  (∀ len, FunNoDLE (v.visit_map len)) ∧
  (∀ i, PureNoDLE (v.visit_enum_unit i)) ∧
  FunNoDLE v.visit_enum_map

/-! Concrete visitors used to witness the theorems on explicit inputs. -/

/-- A plain probing visitor over `Nat`: primitive callbacks return a small
code, the cursor callbacks report the declared element count they were
constructed with, and state-passing callbacks leave the state unchanged. -/
def vNat : Visitor Nat where
  visit_unit := .ok 0
  visit_bool := fun b => .ok (if b then 1 else 0)
  visit_u8 := fun n => .ok n
  visit_u16 := fun n => .ok n
  visit_u32 := fun n => .ok n
  visit_u64 := fun n => .ok n
  visit_i8 := fun _ => .ok 0
  visit_i16 := fun _ => .ok 0
  visit_i32 := fun _ => .ok 0
  visit_i64 := fun _ => .ok 0
  visit_f32 := fun n => .ok n
  visit_f64 := fun n => .ok n
  visit_borrowed_str := fun bs => .ok bs.length
  visit_str := fun bs => .ok bs.length
  visit_borrowed_bytes := fun _ => .ok 0
  visit_bytes := fun _ => .ok 0
  visit_none := .ok 0
  visit_some := fun st => .ok (0, st)
  visit_newtype_struct := fun st => .ok (0, st)
  visit_seq := fun len st => .ok (len, st)
  visit_map := fun len st => .ok (len, st)
  visit_enum_unit := fun i => .ok i
  visit_enum_map := fun st => .ok (0, st)

/-- A visitor whose cursor callbacks clear the marker cache on return, the
way a visitor that drains its cursor through the deserializer would. -/
def vClean : Visitor Nat where
  visit_unit := .ok 0
  visit_bool := fun b => .ok (if b then 1 else 0)
  visit_u8 := fun n => .ok n
  visit_u16 := fun n => .ok n
  visit_u32 := fun n => .ok n
  visit_u64 := fun n => .ok n
  visit_i8 := fun _ => .ok 0
  visit_i16 := fun _ => .ok 0
  visit_i32 := fun _ => .ok 0
  visit_i64 := fun _ => .ok 0
  visit_f32 := fun n => .ok n
  visit_f64 := fun n => .ok n
  visit_borrowed_str := fun bs => .ok bs.length
  visit_str := fun bs => .ok bs.length
  visit_borrowed_bytes := fun _ => .ok 0
  visit_bytes := fun _ => .ok 0
  visit_none := .ok 0
  visit_some := fun st => .ok (0, { st with marker := none })
  visit_newtype_struct := fun st => .ok (0, { st with marker := none })
  visit_seq := fun len st => .ok (len, { st with marker := none })
  visit_map := fun len st => .ok (len, { st with marker := none })
  visit_enum_unit := fun i => .ok i
  visit_enum_map := fun st => .ok (0, { st with marker := none })

/-- The visitor of an enum target: its unit-variant access yields the
variant index. Used as the inner visitor of an option around an enum. -/
def vEnum : Visitor Nat :=
  vNat

/-- The visitor of an option-around-enum target: notified with "some", it
re-enters the deserializer the way `Option<T>::deserialize` does for an
enum `T`, namely through `deserialize_enum`. -/
def vOuter : Visitor Nat :=
  { vNat with visit_some := fun st => deserialize_enum vEnum st }

/-! ## Auxiliary lemmas -/

theorem withDepth_rd (d : Nat) (st : DState) : (DState.withDepth d st).rd = st.rd :=
  rfl

theorem withDepth_marker (d : Nat) (st : DState) :
    (DState.withDepth d st).marker = st.marker :=
  rfl

theorem mapPair_ok {α : Type} {r : Except Error α} {s : DState} {a : α} {st1 : DState}
    (h : r.map (fun x => (x, s)) = .ok (a, st1)) : st1 = s := by
  cases r with
  | error e => simp [Except.map] at h
  | ok x => simp [Except.map] at h; exact h.2.symm

theorem map_pure_depth {α : Type} (r : Except Error α) (s : DState) (d : Nat) :
    r.map (fun a => (a, DState.withDepth d s)) =
      (r.map (fun a => (a, s))).map (fun p => (p.1, DState.withDepth d p.2)) := by
  cases r <;> rfl

theorem read_bin_data_eq (len : Nat) (st : DState) :
    read_bin_data len st =
      if st.rd.length < len then .error (.InvalidDataRead .unexpectedEof)
      else .ok (.Borrowed (st.rd.take len), { st with rd := st.rd.drop len }) := by
  unfold read_bin_data ReadRefReader.read_slice
  by_cases hc : st.rd.length < len <;> simp [hc]

theorem read_str_data_eq {α : Type} (v : Visitor α) (len : Nat) (st : DState)
    (h : len ≤ st.rd.length) :
    read_str_data v len st =
      if isValidUtf8 (st.rd.take len) then
        (v.visit_borrowed_str (st.rd.take len)).map
          (fun a => (a, { st with rd := st.rd.drop len }))
      else
        match v.visit_borrowed_bytes (st.rd.take len) with
        | .ok a => .ok (a, { st with rd := st.rd.drop len })
        | .error _ => .error .Utf8Error := by
  unfold read_str_data
  rw [read_bin_data_eq]
  simp [Nat.not_lt.mpr h]

theorem read_str_data_ok_shape {α : Type} {v : Visitor α} {len : Nat} {st : DState}
    {a : α} {st1 : DState} (h : read_str_data v len st = .ok (a, st1)) :
    st1 = { st with rd := st.rd.drop len } := by
  by_cases hlen : len ≤ st.rd.length
  · rw [read_str_data_eq v len st hlen] at h
    split at h
    · exact mapPair_ok h
    · split at h
      · simp at h; exact h.2.symm
      · simp at h
  · unfold read_str_data at h
    rw [read_bin_data_eq] at h
    simp [Nat.lt_of_not_le (fun hc => hlen hc)] at h

theorem read_bytes_ok_shape {α : Type} {v : Visitor α} {len : Nat} {st : DState}
    {a : α} {st1 : DState} (h : read_bytes v len st = .ok (a, st1)) :
    st1 = { st with rd := st.rd.drop len } := by
  unfold read_bytes at h
  rw [read_bin_data_eq] at h
  by_cases hc : st.rd.length < len
  · simp [hc] at h
  · simp only [hc, if_false] at h
    exact mapPair_ok h

theorem map_error {α β : Type} {r : Except Error α} {f : α → β} {e : Error}
    (h : r.map f = .error e) : r = .error e := by
  cases r with
  | error e0 =>
    simp only [Except.map, Except.error.injEq] at h
    rw [h]
  | ok x =>
    simp only [Except.map] at h
    exact absurd h (by simp)

theorem read_marker_noDLE (rd : List Nat) :
    read_marker rd ≠ .error .DepthLimitExceeded := by
  unfold read_marker
  cases rd <;> simp

theorem read_data_noDLE (n : Nat) (rd : List Nat) :
    read_data n rd ≠ .error .DepthLimitExceeded := by
  unfold read_data
  split <;> simp

theorem mapped_read_data_noDLE {β : Type} (n : Nat) (rd : List Nat)
    (g : Nat × List Nat → β × List Nat) :
    (read_data n rd).map g ≠ .error .DepthLimitExceeded :=
  fun h => read_data_noDLE n rd (map_error h)

theorem read_data_u8_noDLE (rd : List Nat) :
    read_data_u8 rd ≠ .error .DepthLimitExceeded :=
  read_data_noDLE 1 rd

theorem read_data_u16_noDLE (rd : List Nat) :
    read_data_u16 rd ≠ .error .DepthLimitExceeded :=
  read_data_noDLE 2 rd

theorem read_data_u32_noDLE (rd : List Nat) :
    read_data_u32 rd ≠ .error .DepthLimitExceeded :=
  read_data_noDLE 4 rd

theorem read_data_u64_noDLE (rd : List Nat) :
    read_data_u64 rd ≠ .error .DepthLimitExceeded :=
  read_data_noDLE 8 rd

theorem read_data_i8_noDLE (rd : List Nat) :
    read_data_i8 rd ≠ .error .DepthLimitExceeded :=
  mapped_read_data_noDLE 1 rd _

theorem read_data_i16_noDLE (rd : List Nat) :
    read_data_i16 rd ≠ .error .DepthLimitExceeded :=
  mapped_read_data_noDLE 2 rd _

theorem read_data_i32_noDLE (rd : List Nat) :
    read_data_i32 rd ≠ .error .DepthLimitExceeded :=
  mapped_read_data_noDLE 4 rd _

theorem read_data_i64_noDLE (rd : List Nat) :
    read_data_i64 rd ≠ .error .DepthLimitExceeded :=
  mapped_read_data_noDLE 8 rd _

theorem dispatch_marker_none {α : Type} (v : Visitor α)
    (hseq : ∀ len, CacheClean (v.visit_seq len))
    (hmap : ∀ len, CacheClean (v.visit_map len))
    (m : Marker) (st : DState) (hst : st.marker = none) (a : α) (st1 : DState)
    (h : Deserializer.dispatch v m st = .ok (a, st1)) : st1.marker = none := by
  cases m <;> simp only [Deserializer.dispatch] at h <;> repeat' split at h
  all_goals first
    | exact absurd h (by simp)
    | (rw [mapPair_ok h]; exact hst)
    | (rw [read_str_data_ok_shape h]; exact hst)
    | (rw [read_bytes_ok_shape h]; exact hst)
    | exact hseq _ _ _ _ h
    | exact hmap _ _ _ _ h

theorem read_bin_data_depth (len : Nat) (st : DState) (d : Nat) :
    read_bin_data len (DState.withDepth d st) =
      (read_bin_data len st).map (fun p => (p.1, DState.withDepth d p.2)) := by
  rw [read_bin_data_eq, read_bin_data_eq]
  by_cases hc : st.rd.length < len <;> simp [DState.withDepth, hc, Except.map]

theorem read_str_data_depth {α : Type} (v : Visitor α) (len : Nat) (st : DState) (d : Nat) :
    read_str_data v len (DState.withDepth d st) =
      (read_str_data v len st).map (fun p => (p.1, DState.withDepth d p.2)) := by
  unfold read_str_data
  rw [read_bin_data_depth]
  rcases hb : read_bin_data len st with e | p
  · simp [Except.map]
  · obtain ⟨r, st1⟩ := p
    rcases r with buf | buf <;>
      cases hu : isValidUtf8 buf <;> simp only [hu, Except.map, Bool.false_eq_true,
        if_false, if_true] <;>
      first
        | exact map_pure_depth _ _ _
        | (cases hbb : v.visit_borrowed_bytes buf <;> simp [hbb, Except.map])
        | (cases hbb : v.visit_bytes buf <;> simp [hbb, Except.map])

theorem read_bytes_depth {α : Type} (v : Visitor α) (len : Nat) (st : DState) (d : Nat) :
    read_bytes v len (DState.withDepth d st) =
      (read_bytes v len st).map (fun p => (p.1, DState.withDepth d p.2)) := by
  unfold read_bytes
  rw [read_bin_data_depth]
  rcases hb : read_bin_data len st with e | p
  · simp [Except.map]
  · obtain ⟨r, st1⟩ := p
    rcases r with buf | buf <;> simp only [Except.map] <;> exact map_pure_depth _ _ _

theorem read_str_data_noDLE {α : Type} (v : Visitor α) (len : Nat) (st : DState)
    (hstr : ∀ bs, PureNoDLE (v.visit_borrowed_str bs)) :
    read_str_data v len st ≠ .error .DepthLimitExceeded := by
  intro h
  unfold read_str_data at h
  rw [read_bin_data_eq] at h
  by_cases hc : st.rd.length < len
  · simp [hc] at h
  · simp only [hc, if_false] at h
    split at h
    · exact hstr _ (map_error h)
    · split at h
      · simp at h
      · simp at h

theorem read_bytes_noDLE {α : Type} (v : Visitor α) (len : Nat) (st : DState)
    (hbb : ∀ bs, PureNoDLE (v.visit_borrowed_bytes bs)) :
    read_bytes v len st ≠ .error .DepthLimitExceeded := by
  intro h
  unfold read_bytes at h
  rw [read_bin_data_eq] at h
  by_cases hc : st.rd.length < len
  · simp [hc] at h
  · simp only [hc, if_false] at h
    exact hbb _ (map_error h)

theorem dispatch_depth {α : Type} (v : Visitor α)
    (hseq : ∀ len, DepthCommutes (v.visit_seq len))
    (hmap : ∀ len, DepthCommutes (v.visit_map len))
    (m : Marker) (st : DState) (d : Nat) :
    Deserializer.dispatch v m (DState.withDepth d st) =
      (Deserializer.dispatch v m st).map (fun p => (p.1, DState.withDepth d p.2)) := by
  cases m
  case Null => exact map_pure_depth _ st d
  case True => exact map_pure_depth _ st d
  case False => exact map_pure_depth _ st d
  case FixPos p => exact map_pure_depth _ st d
  case FixNeg p => exact map_pure_depth _ st d
  case U8 =>
    simp only [Deserializer.dispatch, withDepth_rd]
    rcases hr : read_data_u8 st.rd with e | ⟨n, rd1⟩ <;> simp only [hr]
    · rfl
    · exact map_pure_depth _ { st with rd := rd1 } d
  case U16 =>
    simp only [Deserializer.dispatch, withDepth_rd]
    rcases hr : read_data_u16 st.rd with e | ⟨n, rd1⟩ <;> simp only [hr]
    · rfl
    · exact map_pure_depth _ { st with rd := rd1 } d
  case U32 =>
    simp only [Deserializer.dispatch, withDepth_rd]
    rcases hr : read_data_u32 st.rd with e | ⟨n, rd1⟩ <;> simp only [hr]
    · rfl
    · exact map_pure_depth _ { st with rd := rd1 } d
  case U64 =>
    simp only [Deserializer.dispatch, withDepth_rd]
    rcases hr : read_data_u64 st.rd with e | ⟨n, rd1⟩ <;> simp only [hr]
    · rfl
    · exact map_pure_depth _ { st with rd := rd1 } d
  case I8 =>
    simp only [Deserializer.dispatch, withDepth_rd]
    rcases hr : read_data_i8 st.rd with e | ⟨n, rd1⟩ <;> simp only [hr]
    · rfl
    · exact map_pure_depth _ { st with rd := rd1 } d
  case I16 =>
    simp only [Deserializer.dispatch, withDepth_rd]
    rcases hr : read_data_i16 st.rd with e | ⟨n, rd1⟩ <;> simp only [hr]
    · rfl
    · exact map_pure_depth _ { st with rd := rd1 } d
  case I32 =>
    simp only [Deserializer.dispatch, withDepth_rd]
    rcases hr : read_data_i32 st.rd with e | ⟨n, rd1⟩ <;> simp only [hr]
    · rfl
    · exact map_pure_depth _ { st with rd := rd1 } d
  case I64 =>
    simp only [Deserializer.dispatch, withDepth_rd]
    rcases hr : read_data_i64 st.rd with e | ⟨n, rd1⟩ <;> simp only [hr]
    · rfl
    · exact map_pure_depth _ { st with rd := rd1 } d
  case F32 =>
    simp only [Deserializer.dispatch, withDepth_rd]
    rcases hr : read_data_u32 st.rd with e | ⟨n, rd1⟩ <;> simp only [hr]
    · rfl
    · exact map_pure_depth _ { st with rd := rd1 } d
  case F64 =>
    simp only [Deserializer.dispatch, withDepth_rd]
    rcases hr : read_data_u64 st.rd with e | ⟨n, rd1⟩ <;> simp only [hr]
    · rfl
    · exact map_pure_depth _ { st with rd := rd1 } d
  case FixStr len => exact read_str_data_depth v len st d
  case Str8 =>
    simp only [Deserializer.dispatch, withDepth_rd]
    rcases hr : read_data_u8 st.rd with e | ⟨len, rd1⟩ <;> simp only [hr]
    · rfl
    · exact read_str_data_depth v len { st with rd := rd1 } d
  case Str16 =>
    simp only [Deserializer.dispatch, withDepth_rd]
    rcases hr : read_data_u16 st.rd with e | ⟨len, rd1⟩ <;> simp only [hr]
    · rfl
    · exact read_str_data_depth v len { st with rd := rd1 } d
  case Str32 =>
    simp only [Deserializer.dispatch, withDepth_rd]
    rcases hr : read_data_u32 st.rd with e | ⟨len, rd1⟩ <;> simp only [hr]
    · rfl
    · exact read_str_data_depth v len { st with rd := rd1 } d
  case FixArray len => exact hseq len st d
  case Array16 =>
    simp only [Deserializer.dispatch, withDepth_rd]
    rcases hr : read_data_u16 st.rd with e | ⟨len, rd1⟩ <;> simp only [hr]
    · rfl
    · exact hseq len { st with rd := rd1 } d
  case Array32 =>
    simp only [Deserializer.dispatch, withDepth_rd]
    rcases hr : read_data_u32 st.rd with e | ⟨len, rd1⟩ <;> simp only [hr]
    · rfl
    · exact hseq len { st with rd := rd1 } d
  case FixMap len => exact hmap len st d
  case Map16 =>
    simp only [Deserializer.dispatch, withDepth_rd]
    rcases hr : read_data_u16 st.rd with e | ⟨len, rd1⟩ <;> simp only [hr]
    · rfl
    · exact hmap len { st with rd := rd1 } d
  case Map32 =>
    simp only [Deserializer.dispatch, withDepth_rd]
    rcases hr : read_data_u32 st.rd with e | ⟨len, rd1⟩ <;> simp only [hr]
    · rfl
    · exact hmap len { st with rd := rd1 } d
  case Bin8 =>
    simp only [Deserializer.dispatch, withDepth_rd]
    rcases hr : read_data_u8 st.rd with e | ⟨len, rd1⟩ <;> simp only [hr]
    · rfl
    · exact read_bytes_depth v len { st with rd := rd1 } d
  case Bin16 =>
    simp only [Deserializer.dispatch, withDepth_rd]
    rcases hr : read_data_u16 st.rd with e | ⟨len, rd1⟩ <;> simp only [hr]
    · rfl
    · exact read_bytes_depth v len { st with rd := rd1 } d
  case Bin32 =>
    simp only [Deserializer.dispatch, withDepth_rd]
    rcases hr : read_data_u32 st.rd with e | ⟨len, rd1⟩ <;> simp only [hr]
    · rfl
    · exact read_bytes_depth v len { st with rd := rd1 } d
  all_goals rfl

theorem enum_dispatch_depth {α : Type} (v : Visitor α)
    (hem : DepthCommutes v.visit_enum_map) (m : Marker) (st : DState) (d : Nat) :
    Deserializer.enum_dispatch v m (DState.withDepth d st) =
      (Deserializer.enum_dispatch v m st).map (fun p => (p.1, DState.withDepth d p.2)) := by
  cases m
  case FixPos p => exact map_pure_depth _ st d
  case FixMap n =>
    rcases n with _ | _ | n
    · rfl
    · exact hem st d
    · rfl
  case U8 =>
    simp only [Deserializer.enum_dispatch, withDepth_rd]
    rcases hr : read_data_u8 st.rd with e | ⟨n, rd1⟩ <;> simp only [hr]
    · rfl
    · exact map_pure_depth _ { st with rd := rd1 } d
  case U16 =>
    simp only [Deserializer.enum_dispatch, withDepth_rd]
    rcases hr : read_data_u16 st.rd with e | ⟨n, rd1⟩ <;> simp only [hr]
    · rfl
    · exact map_pure_depth _ { st with rd := rd1 } d
  case U32 =>
    simp only [Deserializer.enum_dispatch, withDepth_rd]
    rcases hr : read_data_u32 st.rd with e | ⟨n, rd1⟩ <;> simp only [hr]
    · rfl
    · exact map_pure_depth _ { st with rd := rd1 } d
  all_goals rfl

theorem deserialize_any_depth {α : Type} (v : Visitor α)
    (hseq : ∀ len, DepthCommutes (v.visit_seq len))
    (hmap : ∀ len, DepthCommutes (v.visit_map len)) (st : DState) (d : Nat) :
    deserialize_any v (DState.withDepth d st) =
      (deserialize_any v st).map (fun p => (p.1, DState.withDepth d p.2)) := by
  simp only [deserialize_any, withDepth_marker, withDepth_rd]
  rcases hm : st.marker with _ | m0 <;> simp only [hm]
  · rcases hr : read_marker st.rd with e | ⟨m1, rd1⟩ <;> simp only [hr]
    · rfl
    · exact dispatch_depth v hseq hmap m1 { st with rd := rd1, marker := none } d
  · exact dispatch_depth v hseq hmap m0 { st with marker := none } d

theorem deserialize_option_depth {α : Type} (v : Visitor α)
    (hsome : DepthCommutes v.visit_some) (st : DState) (d : Nat) :
    deserialize_option v (DState.withDepth d st) =
      (deserialize_option v st).map (fun p => (p.1, DState.withDepth d p.2)) := by
  simp only [deserialize_option, withDepth_rd]
  rcases hr : read_marker st.rd with e | ⟨m1, rd1⟩ <;> simp only [hr]
  · rfl
  · by_cases hm : m1 = Marker.Null
    · rw [if_pos hm, if_pos hm]
      exact map_pure_depth _ { st with rd := rd1 } d
    · rw [if_neg hm, if_neg hm]
      exact hsome { st with rd := rd1, marker := some m1 } d

theorem deserialize_enum_depth {α : Type} (v : Visitor α)
    (hem : DepthCommutes v.visit_enum_map) (st : DState) (d : Nat) :
    deserialize_enum v (DState.withDepth d st) =
      (deserialize_enum v st).map (fun p => (p.1, DState.withDepth d p.2)) := by
  simp only [deserialize_enum, withDepth_rd]
  rcases hr : read_marker st.rd with e | ⟨m1, rd1⟩ <;> simp only [hr]
  · rfl
  · exact enum_dispatch_depth v hem m1 { st with rd := rd1 } d

theorem dispatch_noDLE {α : Type} (v : Visitor α) (hv : Visitor.NoDepthErrs v)
    (m : Marker) (st : DState) :
    Deserializer.dispatch v m st ≠ .error .DepthLimitExceeded := by
  obtain ⟨hunit, hbool, hu8, hu16, hu32, hu64, hi8, hi16, hi32, hi64, hf32, hf64,
    hbstr, hstr2, hbbytes, hbytes2, hnone, hsomeF, hnewF, hseqF, hmapF, henu, hemapF⟩ := hv
  intro h
  cases m <;> simp only [Deserializer.dispatch] at h <;> repeat' split at h
  all_goals first
    | exact Except.noConfusion h
    | (injection h with h2; exact Error.noConfusion h2)
    | exact hunit (map_error h)
    | exact hbool _ (map_error h)
    | exact hu8 _ (map_error h)
    | exact hu16 _ (map_error h)
    | exact hu32 _ (map_error h)
    | exact hu64 _ (map_error h)
    | exact hi8 _ (map_error h)
    | exact hi16 _ (map_error h)
    | exact hi32 _ (map_error h)
    | exact hi64 _ (map_error h)
    | exact hf32 _ (map_error h)
    | exact hf64 _ (map_error h)
    | exact read_str_data_noDLE v _ _ hbstr h
    | exact read_bytes_noDLE v _ _ hbbytes h
    | exact hseqF _ _ h
    | exact hmapF _ _ h
    | (injection h with h2; subst h2; rename_i x heq; exact read_data_u8_noDLE _ heq)
    | (injection h with h2; subst h2; rename_i x heq; exact read_data_u16_noDLE _ heq)
    | (injection h with h2; subst h2; rename_i x heq; exact read_data_u32_noDLE _ heq)
    | (injection h with h2; subst h2; rename_i x heq; exact read_data_u64_noDLE _ heq)
    | (injection h with h2; subst h2; rename_i x heq; exact read_data_i8_noDLE _ heq)
    | (injection h with h2; subst h2; rename_i x heq; exact read_data_i16_noDLE _ heq)
    | (injection h with h2; subst h2; rename_i x heq; exact read_data_i32_noDLE _ heq)
    | (injection h with h2; subst h2; rename_i x heq; exact read_data_i64_noDLE _ heq)

theorem enum_dispatch_noDLE {α : Type} (v : Visitor α)
    (henu : ∀ i, PureNoDLE (v.visit_enum_unit i)) (hemapF : FunNoDLE v.visit_enum_map)
    (m : Marker) (st : DState) :
    Deserializer.enum_dispatch v m st ≠ .error .DepthLimitExceeded := by
  intro h
  cases m
  case FixMap n =>
    rcases n with _ | _ | n <;> simp only [Deserializer.enum_dispatch] at h
    · injection h with h2
      exact Error.noConfusion h2
    · exact hemapF _ h
    · injection h with h2
      exact Error.noConfusion h2
  all_goals simp only [Deserializer.enum_dispatch] at h
  all_goals repeat' split at h
  all_goals first
    | exact Except.noConfusion h
    | (injection h with h2; exact Error.noConfusion h2)
    | exact henu _ (map_error h)
    | (injection h with h2; subst h2; rename_i x heq; exact read_data_u8_noDLE _ heq)
    | (injection h with h2; subst h2; rename_i x heq; exact read_data_u16_noDLE _ heq)
    | (injection h with h2; subst h2; rename_i x heq; exact read_data_u32_noDLE _ heq)

theorem deserialize_any_noDLE {α : Type} (v : Visitor α) (hv : Visitor.NoDepthErrs v)
    (st : DState) : deserialize_any v st ≠ .error .DepthLimitExceeded := by
  intro h
  simp only [deserialize_any] at h
  rcases hm : st.marker with _ | m0 <;> simp only [hm] at h
  · rcases hr : read_marker st.rd with e | ⟨m1, rd1⟩ <;> simp only [hr] at h
    · injection h with h2
      subst h2
      exact read_marker_noDLE st.rd hr
    · exact dispatch_noDLE v hv m1 _ h
  · exact dispatch_noDLE v hv m0 _ h

theorem deserialize_option_noDLE {α : Type} (v : Visitor α) (hv : Visitor.NoDepthErrs v)
    (st : DState) : deserialize_option v st ≠ .error .DepthLimitExceeded := by
  obtain ⟨-, -, -, -, -, -, -, -, -, -, -, -, -, -, -, -, hnone, hsomeF, -, -, -, -, -⟩ := hv
  intro h
  simp only [deserialize_option] at h
  rcases hr : read_marker st.rd with e | ⟨m1, rd1⟩ <;> simp only [hr] at h
  · injection h with h2
    subst h2
    exact read_marker_noDLE st.rd hr
  · split at h
    · exact hnone (map_error h)
    · exact hsomeF _ h

theorem deserialize_enum_noDLE {α : Type} (v : Visitor α) (hv : Visitor.NoDepthErrs v)
    (st : DState) : deserialize_enum v st ≠ .error .DepthLimitExceeded := by
  obtain ⟨-, -, -, -, -, -, -, -, -, -, -, -, -, -, -, -, -, -, -, -, -, henu, hemapF⟩ := hv
  intro h
  simp only [deserialize_enum] at h
  rcases hr : read_marker st.rd with e | ⟨m1, rd1⟩ <;> simp only [hr] at h
  · injection h with h2
    subst h2
    exact read_marker_noDLE st.rd hr
  · exact enum_dispatch_noDLE v henu hemapF m1 _ h

theorem enum_dispatch_reject {α : Type} (v : Visitor α) (m : Marker) (st : DState)
    (h : specEnumAccepted m = false) :
    Deserializer.enum_dispatch v m st = .error (.TypeMismatch m) := by
  cases m
  case FixMap n =>
    rcases n with _ | _ | n
    · rfl
    · simp [specEnumAccepted] at h
    · rfl
  all_goals first | rfl | simp [specEnumAccepted] at h

/-! ## Claim theorems -/

/-- C5: on the borrowed byte source, `read_slice` with `len` within the
remaining buffer returns a `Borrowed` reference to exactly the `len`-byte
prefix of the remaining buffer and advances past it (prefix and remainder
together are the original buffer, so no byte is skipped or read out of
bounds); with `len` beyond the remaining buffer it fails with end-of-data
and is total (no panic). -/
theorem claim5_read_slice (buf : List Nat) (len : Nat) :
    (len ≤ buf.length →
      ReadRefReader.read_slice buf len = (.ok (.Borrowed (buf.take len)), buf.drop len) ∧
      buf.take len ++ buf.drop len = buf ∧ (buf.take len).length = len) ∧
    (buf.length < len →
      ReadRefReader.read_slice buf len = (.error .unexpectedEof, buf)) := by
  constructor
  · intro h
    refine ⟨?_, List.take_append_drop len buf, ?_⟩
    · unfold ReadRefReader.read_slice
      rw [if_neg (Nat.not_lt.mpr h)]
    · rw [List.length_take]
      exact Nat.min_eq_left h
  · intro h
    unfold ReadRefReader.read_slice
    rw [if_pos h]

/-- Witness for C5 at a concrete buffer, on both the success and the
end-of-data sides. -/
theorem claim5_read_slice_w :
    ReadRefReader.read_slice [10, 11, 12] 2 = (.ok (.Borrowed [10, 11]), [12]) ∧
    ReadRefReader.read_slice [10, 11, 12] 5 = (.error .unexpectedEof, [10, 11, 12]) :=
  ⟨((claim5_read_slice [10, 11, 12] 2).1 (by decide)).1,
   (claim5_read_slice [10, 11, 12] 5).2 (by decide)⟩

/-- C10: a failed `read_slice` on the borrowed byte source is atomic: the
remaining buffer is unchanged, so a subsequent in-bounds `read_slice`
returns exactly what it would have returned had the failed call never
happened. -/
theorem claim10_read_slice_atomic (buf : List Nat) (len m : Nat)
    (hfail : buf.length < len) (hm : m ≤ buf.length) :
    (ReadRefReader.read_slice buf len).2 = buf ∧
    ReadRefReader.read_slice (ReadRefReader.read_slice buf len).2 m =
      ReadRefReader.read_slice buf m ∧
    ReadRefReader.read_slice (ReadRefReader.read_slice buf len).2 m =
      (.ok (.Borrowed (buf.take m)), buf.drop m) := by
  have h2 : (ReadRefReader.read_slice buf len).2 = buf := by
    unfold ReadRefReader.read_slice
    rw [if_pos hfail]
  refine ⟨h2, by rw [h2], ?_⟩
  rw [h2]
  unfold ReadRefReader.read_slice
  rw [if_neg (Nat.not_lt.mpr hm)]

/-- Witness for C10: the failed oversized read in the source's own unit
test scenario leaves the buffer intact for the next read. -/
theorem claim10_read_slice_atomic_w :
    (ReadRefReader.read_slice [7, 8, 9, 10] 5).2 = [7, 8, 9, 10] ∧
    ReadRefReader.read_slice (ReadRefReader.read_slice [7, 8, 9, 10] 5).2 4 =
      ReadRefReader.read_slice [7, 8, 9, 10] 4 ∧
    ReadRefReader.read_slice (ReadRefReader.read_slice [7, 8, 9, 10] 5).2 4 =
      (.ok (.Borrowed [7, 8, 9, 10]), []) :=
  claim10_read_slice_atomic [7, 8, 9, 10] 5 4 (by decide) (by decide)

/-- C2: `deserialize_option` reads exactly one marker byte; a `Null` marker
notifies "none" with no further input consumed and the cache untouched,
while any other marker is stored in the one-slot cache and "some" re-enters
the deserializer; in both cases the byte source has advanced past exactly
the one marker byte, so no byte is consumed twice or skipped. -/
theorem claim2_option (α : Type) (v : Visitor α) (st : DState) (b : Nat)
    (rest : List Nat) (hrd : st.rd = b :: rest) :
    (Marker.fromU8 (b % 256) = .Null →
      deserialize_option v st = (v.visit_none).map (fun a => (a, { st with rd := rest }))) ∧
    (Marker.fromU8 (b % 256) ≠ .Null →
      deserialize_option v st =
        v.visit_some { st with rd := rest, marker := some (Marker.fromU8 (b % 256)) }) := by
  constructor
  · intro hm
    simp [deserialize_option, read_marker, hrd, hm]
  · intro hm
    simp [deserialize_option, read_marker, hrd, hm]

/-- Witness for C2 on both branches: a wire `Null` yields the none
notification, and a wire positive fixint is cached and handed to "some". -/
theorem claim2_option_w :
    deserialize_option vNat ⟨[0xc0], none, 9⟩ =
      (vNat.visit_none).map (fun a => (a, ⟨[], none, 9⟩)) ∧
    deserialize_option vNat ⟨[0x2a], none, 9⟩ =
      vNat.visit_some ⟨[], some (Marker.FixPos 42), 9⟩ :=
  ⟨(claim2_option Nat vNat ⟨[0xc0], none, 9⟩ 0xc0 [] rfl).1 (by decide),
   (claim2_option Nat vNat ⟨[0x2a], none, 9⟩ 0x2a [] rfl).2 (by decide)⟩

/-- C6: sequence and map cursors are single-pass: a pull with remaining
count zero reports exhausted, leaving the state (hence the wire) untouched;
a pull with positive count decrements it and decodes one element through
the shared deserializer (propagating its errors); a map pull decodes one
key and then one value in wire order; the cursors are constructed with the
declared element count. -/
theorem claim6_cursors (α : Type) (seed kseed vseed : DState → Except Error (α × DState))
    (st : DState) (n : Nat) :
    (SeqAccess.next_element_seed seed 0 st = .ok (none, 0, st)) ∧
    (0 < n → ∀ a st1, seed st = .ok (a, st1) →
      SeqAccess.next_element_seed seed n st = .ok (some a, n - 1, st1)) ∧
    (0 < n → ∀ e, seed st = .error e →
      SeqAccess.next_element_seed seed n st = .error e) ∧
    (MapAccess.next_key_seed kseed 0 st = .ok (none, 0, st)) ∧
    (0 < n → ∀ k st1, kseed st = .ok (k, st1) →
      MapAccess.next_key_seed kseed n st = .ok (some k, n - 1, st1) ∧
      MapAccess.next_value_seed vseed st1 = vseed st1) ∧
    (∀ (v : Visitor α) (len : Nat),
      read_array v len st = v.visit_seq len st ∧ read_map v len st = v.visit_map len st) := by
  refine ⟨?_, ?_, ?_, ?_, ?_, ?_⟩
  · simp [SeqAccess.next_element_seed]
  · intro hn a st1 hs
    simp [SeqAccess.next_element_seed, hn, hs]
  · intro hn e hs
    simp [SeqAccess.next_element_seed, hn, hs]
  · simp [MapAccess.next_key_seed]
  · intro hn k st1 hk
    refine ⟨by simp [MapAccess.next_key_seed, hn, hk], ?_⟩
    rcases hv : vseed st1 with e | p <;> simp [MapAccess.next_value_seed, hv]
  · intro v len
    exact ⟨rfl, rfl⟩

/-- Witness for C6: a two-element cursor pulls one element, and an
exhausted cursor reports no element without touching the state. -/
theorem claim6_cursors_w :
    SeqAccess.next_element_seed (fun s => .ok (5, s)) 2 ⟨[9], none, 0⟩ =
      .ok (some 5, 1, ⟨[9], none, 0⟩) ∧
    SeqAccess.next_element_seed (fun s => .ok (5, s)) 0 ⟨[9], none, 0⟩ =
      .ok (none, 0, ⟨[9], none, 0⟩) :=
  ⟨(claim6_cursors Nat (fun s => .ok (5, s)) (fun s => .ok (5, s)) (fun s => .ok (5, s))
      ⟨[9], none, 0⟩ 2).2.1 (by decide) 5 ⟨[9], none, 0⟩ rfl,
   (claim6_cursors Nat (fun s => .ok (5, s)) (fun s => .ok (5, s)) (fun s => .ok (5, s))
      ⟨[9], none, 0⟩ 2).1⟩

/-- C8: every forwarded typed entry point behaves identically to
`deserialize_any` on every visitor and state: the wire marker, not the
requested type, determines the decoding path. -/
theorem claim8_forwarding (α : Type) (v : Visitor α) (st : DState) (len : Nat)
    (nm : String) (fields : List String) :
    deserialize_bool v st = deserialize_any v st ∧
    deserialize_u8 v st = deserialize_any v st ∧
    deserialize_u16 v st = deserialize_any v st ∧
    deserialize_u32 v st = deserialize_any v st ∧
    deserialize_u64 v st = deserialize_any v st ∧
    deserialize_i8 v st = deserialize_any v st ∧
    deserialize_i16 v st = deserialize_any v st ∧
    deserialize_i32 v st = deserialize_any v st ∧
    deserialize_i64 v st = deserialize_any v st ∧
    deserialize_f32 v st = deserialize_any v st ∧
    deserialize_f64 v st = deserialize_any v st ∧
    deserialize_char v st = deserialize_any v st ∧
    deserialize_str v st = deserialize_any v st ∧
    deserialize_string v st = deserialize_any v st ∧
    deserialize_bytes v st = deserialize_any v st ∧
    deserialize_byte_buf v st = deserialize_any v st ∧
    deserialize_unit v st = deserialize_any v st ∧
    deserialize_unit_struct nm v st = deserialize_any v st ∧
    deserialize_seq v st = deserialize_any v st ∧
    deserialize_map v st = deserialize_any v st ∧
    deserialize_tuple len v st = deserialize_any v st ∧
    deserialize_tuple_struct nm len v st = deserialize_any v st ∧
    deserialize_struct nm fields v st = deserialize_any v st ∧
    deserialize_identifier v st = deserialize_any v st ∧
    deserialize_ignored_any v st = deserialize_any v st :=
  ⟨rfl, rfl, rfl, rfl, rfl, rfl, rfl, rfl, rfl, rfl, rfl, rfl, rfl, rfl, rfl, rfl, rfl,
   rfl, rfl, rfl, rfl, rfl, rfl, rfl, rfl⟩

/-- Counterexample for C9 as stated: a tuple-payload request with declared
arity 2 against a wire array of length 3 hands the visitor a 3-element
sequence cursor — the sequence length is the wire-declared one, not the
declared number of tuple elements (`vNat.visit_seq` reports the cursor
length it was constructed with). -/
theorem claim9_cex :
    VariantAccess.tuple_variant 2 vNat ⟨[0x93], none, 1024⟩ =
      .ok (3, ⟨[], none, 1024⟩) ∧ (3 : Nat) ≠ 2 :=
  ⟨rfl, by decide⟩

/-- C9 (amended): the payload access of the map-form variant accessor:
a unit-payload request reads and discards exactly one array-length marker
(succeeding precisely when the external array-length read does, and
propagating its error otherwise); a newtype-payload request decodes exactly
one enclosed value through the shared deserializer; tuple-payload and
struct-payload requests forward to `deserialize_tuple`, which discards the
declared arity and field count and behaves as `deserialize_any`, so the
payload sequence length comes from the wire marker. -/
theorem claim9_variant_payloads (α : Type) (v : Visitor α)
    (seed : DState → Except Error (α × DState)) (st : DState) (len : Nat)
    (fields : List String) :
    (∀ n rd1, read_array_len st.rd = .ok (n, rd1) →
      VariantAccess.unit_variant st = .ok ((), { st with rd := rd1 })) ∧
    (∀ e, read_array_len st.rd = .error e → VariantAccess.unit_variant st = .error e) ∧
    (VariantAccess.newtype_variant_seed seed st = seed st) ∧
    (VariantAccess.tuple_variant len v st = deserialize_any v st) ∧
    (VariantAccess.struct_variant fields v st = deserialize_any v st) := by
  refine ⟨?_, ?_, rfl, rfl, rfl⟩
  · intro n rd1 h
    simp [VariantAccess.unit_variant, h]
  · intro e h
    simp [VariantAccess.unit_variant, h]

/-- Witness for C9 (amended): a unit payload consumes exactly the empty
fix-array marker that balances the map value slot. -/
theorem claim9_variant_payloads_w :
    VariantAccess.unit_variant ⟨[0x90, 0x07], none, 4⟩ = .ok ((), ⟨[0x07], none, 4⟩) :=
  (claim9_variant_payloads Nat vNat (fun s => .ok (0, s)) ⟨[0x90, 0x07], none, 4⟩ 0 []).1
    0 [0x07] rfl

/-- C3: in enum position exactly the four wire forms are accepted — an
embedded positive fixint (index 0–127), an explicit u8/u16/u32 integer
(read big-endian after the marker), and a single-entry fixmap — and every
other marker, including any map marker whose declared size is not exactly
one entry, fails with `TypeMismatch` carrying that marker. -/
theorem claim3_enum_forms (α : Type) (v : Visitor α) (st : DState) (b : Nat)
    (rest : List Nat) (hrd : st.rd = b :: rest) :
    (∀ p, Marker.fromU8 (b % 256) = .FixPos p →
      deserialize_enum v st = (v.visit_enum_unit p).map (fun a => (a, { st with rd := rest }))) ∧
    (Marker.fromU8 (b % 256) = .FixMap 1 →
      deserialize_enum v st = v.visit_enum_map { st with rd := rest }) ∧
    (Marker.fromU8 (b % 256) = .U8 → ∀ c rest2, read_data_u8 rest = .ok (c, rest2) →
      deserialize_enum v st = (v.visit_enum_unit c).map (fun a => (a, { st with rd := rest2 }))) ∧
    (Marker.fromU8 (b % 256) = .U16 → ∀ c rest2, read_data_u16 rest = .ok (c, rest2) →
      deserialize_enum v st = (v.visit_enum_unit c).map (fun a => (a, { st with rd := rest2 }))) ∧
    (Marker.fromU8 (b % 256) = .U32 → ∀ c rest2, read_data_u32 rest = .ok (c, rest2) →
      deserialize_enum v st = (v.visit_enum_unit c).map (fun a => (a, { st with rd := rest2 }))) ∧
    (specEnumAccepted (Marker.fromU8 (b % 256)) = false →
      deserialize_enum v st = .error (.TypeMismatch (Marker.fromU8 (b % 256)))) := by
  refine ⟨?_, ?_, ?_, ?_, ?_, ?_⟩
  · intro p hm
    simp [deserialize_enum, read_marker, hrd, hm, Deserializer.enum_dispatch]
  · intro hm
    simp [deserialize_enum, read_marker, hrd, hm, Deserializer.enum_dispatch]
  · intro hm c rest2 hr
    simp [deserialize_enum, read_marker, hrd, hm, Deserializer.enum_dispatch, hr]
  · intro hm c rest2 hr
    simp [deserialize_enum, read_marker, hrd, hm, Deserializer.enum_dispatch, hr]
  · intro hm c rest2 hr
    simp [deserialize_enum, read_marker, hrd, hm, Deserializer.enum_dispatch, hr]
  · intro hm
    simp only [deserialize_enum, read_marker, hrd]
    exact enum_dispatch_reject v (Marker.fromU8 (b % 256)) { st with rd := rest } hm

/-- Witness for C3: a single-entry fixmap reaches the map variant access,
and a two-entry fixmap in enum position fails with `TypeMismatch` carrying
the `FixMap 2` marker. -/
theorem claim3_enum_forms_w :
    deserialize_enum vNat ⟨[0x81, 0x00], none, 0⟩ = vNat.visit_enum_map ⟨[0x00], none, 0⟩ ∧
    deserialize_enum vNat ⟨[0x82, 0x00], none, 0⟩ =
      .error (.TypeMismatch (Marker.FixMap 2)) :=
  ⟨(claim3_enum_forms Nat vNat ⟨[0x81, 0x00], none, 0⟩ 0x81 [0x00] rfl).2.1 (by decide),
   (claim3_enum_forms Nat vNat ⟨[0x82, 0x00], none, 0⟩ 0x82 [0x00] rfl).2.2.2.2.2 (by decide)⟩

/-- C4: for a string payload of declared length `len` within the remaining
input (borrowed source), exactly `len` bytes are consumed; on valid UTF-8
the visitor is notified with the borrowed string (the exact byte prefix);
on invalid UTF-8 the decoder notifies the visitor with the raw borrowed
bytes unchanged and succeeds when the visitor accepts them, and only when
that bytes notification is rejected does decoding fail, with `Utf8Error`. -/
theorem claim4_str_fallback (α : Type) (v : Visitor α) (len : Nat) (st : DState)
    (hlen : len ≤ st.rd.length) :
    (isValidUtf8 (st.rd.take len) = true →
      read_str_data v len st =
        (v.visit_borrowed_str (st.rd.take len)).map
          (fun a => (a, { st with rd := st.rd.drop len }))) ∧
    (isValidUtf8 (st.rd.take len) = false →
      (∀ a, v.visit_borrowed_bytes (st.rd.take len) = .ok a →
        read_str_data v len st = .ok (a, { st with rd := st.rd.drop len })) ∧
      (∀ e, v.visit_borrowed_bytes (st.rd.take len) = .error e →
        read_str_data v len st = .error .Utf8Error)) := by
  refine ⟨?_, fun hv => ⟨?_, ?_⟩⟩
  · intro hv
    rw [read_str_data_eq v len st hlen, if_pos hv]
  · intro a ha
    rw [read_str_data_eq v len st hlen]
    simp [hv, ha]
  · intro e he
    rw [read_str_data_eq v len st hlen]
    simp [hv, he]

/-- Witness for C4 on both sides: a valid one-byte UTF-8 payload notifies
the borrowed string, and the invalid byte 0xff is accepted unchanged by a
bytes-accepting visitor. -/
theorem claim4_str_fallback_w :
    read_str_data vNat 1 ⟨[0x41, 0x02], none, 3⟩ =
      (vNat.visit_borrowed_str [0x41]).map (fun a => (a, ⟨[0x02], none, 3⟩)) ∧
    read_str_data vNat 1 ⟨[0xff, 0x02], none, 3⟩ = .ok (0, ⟨[0x02], none, 3⟩) :=
  ⟨(claim4_str_fallback Nat vNat 1 ⟨[0x41, 0x02], none, 3⟩ (by decide)).1 (by decide),
   ((claim4_str_fallback Nat vNat 1 ⟨[0xff, 0x02], none, 3⟩ (by decide)).2 (by decide)).1
     0 rfl⟩

/-- Counterexample for C1 as stated: decoding the wire for an option around
an enum (`Some(variant)`), `deserialize_option` reads the marker `FixPos 5`,
caches it, and notifies "some"; the very next dispatch, `deserialize_enum`,
reads a fresh marker from the byte source (consuming the following byte
0x00) instead of consuming the cached one, which is left stale in the final
state — so it is not the case that every dispatch entry that reads a marker
after an option cached one consumes the cached marker. -/
theorem claim1_cex :
    deserialize_option vOuter ⟨[0x05, 0x00], none, 1024⟩ =
      .ok (0, ⟨[], some (Marker.FixPos 5), 1024⟩) ∧
    (⟨[], some (Marker.FixPos 5), 1024⟩ : DState).marker ≠ none :=
  ⟨rfl, by decide⟩

/-- C1 (amended): the cached marker is consumed by the very next
`deserialize_any` dispatch (the entry point every forwarded typed entry
shares): with a marker cached, `deserialize_any` dispatches on it with the
cache cleared before dispatch and reads no fresh marker, so the cached
marker can never be read twice; and every successful `deserialize_any` run
whose cursor callbacks leave the cache clear ends with an empty cache.
`deserialize_option` and `deserialize_enum`, however, always read a fresh
marker and do not consult the cache, so a marker cached by
`deserialize_option` is left stale when the immediately following dispatch
is an option or enum one (see the counterexample). -/
theorem claim1_cached_marker (α : Type) (v : Visitor α) (st : DState) (m : Marker)
    (hseq : ∀ len, CacheClean (v.visit_seq len))
    (hmap : ∀ len, CacheClean (v.visit_map len)) :
    (st.marker = some m →
      deserialize_any v st = Deserializer.dispatch v m { st with marker := none }) ∧
    (∀ a st1, deserialize_any v st = .ok (a, st1) → st1.marker = none) := by
  constructor
  · intro hm
    simp [deserialize_any, hm]
  · intro a st1 h
    rcases hm : st.marker with _ | m0 <;> simp only [deserialize_any, hm] at h
    · rcases hr : read_marker st.rd with e | ⟨m1, rd1⟩ <;> simp only [hr] at h
      · exact absurd h (by simp)
      · exact dispatch_marker_none v hseq hmap m1 _ rfl a st1 h
    · exact dispatch_marker_none v hseq hmap m0 _ rfl a st1 h

/-- Witness for C1 (amended) at a concrete state with a cached `Null`
marker: the dispatch consumes the cache, and the successful run ends with
an empty cache. -/
theorem claim1_cached_marker_w :
    deserialize_any vClean ⟨[], some Marker.Null, 3⟩ =
      Deserializer.dispatch vClean Marker.Null ⟨[], none, 3⟩ ∧
    (⟨[], none, 3⟩ : DState).marker = none := by
  have hs : ∀ len, CacheClean (vClean.visit_seq len) := by
    intro len st a st1 h
    injection h with h1
    injection h1 with h2 h3
    rw [← h3]
  have hm : ∀ len, CacheClean (vClean.visit_map len) := by
    intro len st a st1 h
    injection h with h1
    injection h1 with h2 h3
    rw [← h3]
  exact ⟨(claim1_cached_marker Nat vClean ⟨[], some Marker.Null, 3⟩ Marker.Null hs hm).1 rfl,
    (claim1_cached_marker Nat vClean ⟨[], some Marker.Null, 3⟩ Marker.Null hs hm).2
      0 ⟨[], none, 3⟩ rfl⟩

/-- C7: the depth budget is inert. `set_max_depth` changes only the stored
depth field; provided the visitor's state callbacks neither read nor write
the depth field themselves, every decode entry point commutes with setting
the depth (so no decode operation decrements or checks the depth — the run
and its result are independent of the configured depth, which is carried
through unchanged); and provided no visitor callback produces
`DepthLimitExceeded`, no decode entry point returns `DepthLimitExceeded`
for any input and any configured depth. -/
theorem claim7_depth_inert (α : Type) (v : Visitor α)
    (hseq : ∀ len, DepthCommutes (v.visit_seq len))
    (hmap : ∀ len, DepthCommutes (v.visit_map len))
    (hsome : DepthCommutes v.visit_some)
    (hem : DepthCommutes v.visit_enum_map)
    (hnd : Visitor.NoDepthErrs v) :
    (∀ n st, (set_max_depth n st).rd = st.rd ∧ (set_max_depth n st).marker = st.marker ∧
      (set_max_depth n st).depth = n) ∧
    (∀ st d, deserialize_any v (DState.withDepth d st) =
      (deserialize_any v st).map (fun p => (p.1, DState.withDepth d p.2))) ∧
    (∀ st d, deserialize_option v (DState.withDepth d st) =
      (deserialize_option v st).map (fun p => (p.1, DState.withDepth d p.2))) ∧
    (∀ st d, deserialize_enum v (DState.withDepth d st) =
      (deserialize_enum v st).map (fun p => (p.1, DState.withDepth d p.2))) ∧
    (∀ st, deserialize_any v st ≠ .error .DepthLimitExceeded) ∧
    (∀ st, deserialize_option v st ≠ .error .DepthLimitExceeded) ∧
    (∀ st, deserialize_enum v st ≠ .error .DepthLimitExceeded) :=
  ⟨fun _ _ => ⟨rfl, rfl, rfl⟩,
   fun st d => deserialize_any_depth v hseq hmap st d,
   fun st d => deserialize_option_depth v hsome st d,
   fun st d => deserialize_enum_depth v hem st d,
   fun st => deserialize_any_noDLE v hnd st,
   fun st => deserialize_option_noDLE v hnd st,
   fun st => deserialize_enum_noDLE v hnd st⟩

/-- Witness for C7 at a concrete visitor and state: a depth of 7 is carried
through a `Null` decode unchanged and unread, and the decode does not
produce the depth-limit error. -/
theorem claim7_depth_inert_w :
    deserialize_any vNat (DState.withDepth 7 ⟨[0xc0], none, 0⟩) =
      (deserialize_any vNat ⟨[0xc0], none, 0⟩).map
        (fun p => (p.1, DState.withDepth 7 p.2)) ∧
    deserialize_any vNat ⟨[0xc0], none, 0⟩ ≠ .error .DepthLimitExceeded ∧
    (set_max_depth 5 ⟨[0xc0], none, 0⟩).depth = 5 := by
  have hseq : ∀ len, DepthCommutes (vNat.visit_seq len) := fun len st d => rfl
  have hmap : ∀ len, DepthCommutes (vNat.visit_map len) := fun len st d => rfl
  have hsome : DepthCommutes vNat.visit_some := fun st d => rfl
  have hem : DepthCommutes vNat.visit_enum_map := fun st d => rfl
  have hnd : Visitor.NoDepthErrs vNat := by
    refine ⟨?_, ?_, ?_, ?_, ?_, ?_, ?_, ?_, ?_, ?_, ?_, ?_, ?_, ?_, ?_, ?_, ?_, ?_, ?_,
      ?_, ?_, ?_, ?_⟩ <;> (intros; simp [PureNoDLE, FunNoDLE, vNat])
  have h := claim7_depth_inert Nat vNat hseq hmap hsome hem hnd
  exact ⟨h.2.1 ⟨[0xc0], none, 0⟩ 7, h.2.2.2.2.1 ⟨[0xc0], none, 0⟩, (h.1 5 ⟨[0xc0], none, 0⟩).2.2⟩

end MsgpackDecode
